import Mathlib

/-!
Verification of the ResearchAgent trading-agent repository.

The persistence module (`createDb` / `getDb`) is present in the source and is
embedded directly.  The core pipeline components (SignalEngine, DecisionGate,
RiskManager, PositionTracker) are described by the specification; they are
modelled here from the specification's words.
-/

namespace ResearchAgent

/-! ## Persistence schema, embedded from `createDb` in the database module -/

/-- One column descriptor of a SQLite `CREATE TABLE` statement. -/
structure Column where
  name : String
  sqlType : String
  notNull : Bool
  primaryKey : Bool
  autoIncrement : Bool
  defaultVal : Option String
deriving DecidableEq, Repr

/-- Shorthand for a plain column with no constraints beyond NOT NULL. -/
def col (n ty : String) (nn : Bool) : Column :=
  { name := n, sqlType := ty, notNull := nn, primaryKey := false,
    autoIncrement := false, defaultVal := none }

/-- The `trades` table exactly as created by `createDb`. -/
def tradesTable : List Column :=
  [ { name := "id", sqlType := "TEXT", notNull := false, primaryKey := true,
      autoIncrement := false, defaultVal := none },
    col "symbol" "TEXT" true,
    col "side" "TEXT" true,
    col "qty" "REAL" true,
    col "entry_price" "REAL" true,
    col "exit_price" "REAL" false,
    col "stop_loss" "REAL" true,
    col "take_profit" "REAL" true,
    { name := "status", sqlType := "TEXT", notNull := true, primaryKey := false,
      autoIncrement := false, defaultVal := some "open" },
    col "pnl" "REAL" false,
    col "r_multiple" "REAL" false,
    col "confidence" "REAL" true,
    col "opened_at" "TEXT" true,
    col "closed_at" "TEXT" false,
    col "checklist_snapshot" "TEXT" true ]

/-- The `account_snapshots` table exactly as created by `createDb`. -/
def accountSnapshotsTable : List Column :=
  [ { name := "id", sqlType := "INTEGER", notNull := false, primaryKey := true,
      autoIncrement := true, defaultVal := none },
    col "cash" "REAL" true,
    col "equity" "REAL" true,
    col "day_pnl" "REAL" true,
    col "total_pnl" "REAL" true,
    col "timestamp" "TEXT" true ]

/-- The `signal_snapshots` table exactly as created by `createDb`. -/
def signalSnapshotsTable : List Column :=
  [ { name := "id", sqlType := "INTEGER", notNull := false, primaryKey := true,
      autoIncrement := true, defaultVal := none },
    col "symbol" "TEXT" true,
    col "timestamp" "TEXT" true,
    col "signals" "TEXT" true,
    col "score" "REAL" true,
    col "confidence" "REAL" true,
    col "bias" "TEXT" true,
    { name := "should_trade", sqlType := "INTEGER", notNull := true,
      primaryKey := false, autoIncrement := false, defaultVal := some "0" } ]

/-- The `bars` table exactly as created by `createDb`. -/
def barsTable : List Column :=
  [ { name := "id", sqlType := "INTEGER", notNull := false, primaryKey := true,
      autoIncrement := true, defaultVal := none },
    col "symbol" "TEXT" true,
    col "timeframe" "TEXT" true,
    col "timestamp" "TEXT" true,
    col "open" "REAL" true,
    col "high" "REAL" true,
    col "low" "REAL" true,
    col "close" "REAL" true,
    col "volume" "REAL" true ]

/-- The column names the specification lists for the `trades` table,
written from the specification's words (spec section 6). -/
def specTradesColumns : List String :=
  ["id", "symbol", "side", "qty", "entry_price", "exit_price", "stop_loss",
   "take_profit", "status", "pnl", "r_multiple", "confidence", "opened_at",
   "closed_at", "checklist_snapshot"]

/-- The column names the specification lists for the `signal_snapshots` table,
written from the specification's words (spec section 6). -/
def specSignalSnapshotsColumns : List String :=
  ["id", "symbol", "timestamp", "signals", "score", "confidence", "bias",
   "should_trade"]

/-! ## The module-level database handle, embedded from `getDb`

The module keeps `let db = null`; `getDb` constructs the handle through
`createDb` on first call and caches it.  A handle is identified by the index
of the `createDb` call that produced it, and the state counts how many
times `createDb` (and hence table creation) has run. -/

/-- Module-level mutable state of the database module: the cached handle
(`db` variable, `none` meaning the TypeScript `null`) and the number of
`createDb` invocations so far. -/
structure DbModuleState where
  db : Option Nat
  createCalls : Nat
deriving DecidableEq, Repr

/-- The state at process start: `db = null`, `createDb` never run. -/
def initDbState : DbModuleState := { db := none, createCalls := 0 }

/-- `getDb`: if the cached handle is absent, run `createDb` (producing a fresh
handle and performing table creation), cache and return it; otherwise return
the cached handle unchanged. -/
def getDb (s : DbModuleState) : Nat × DbModuleState :=
  match s.db with
  | some h => (h, s)
  | none =>
      (s.createCalls,
       { db := some s.createCalls, createCalls := s.createCalls + 1 })

/-- Run a sequence of `n` successive `getDb` calls from state `s`. -/
def getDbCalls : Nat → DbModuleState → DbModuleState
  | 0, s => s
  | n + 1, s => getDbCalls n (getDb s).2

/-! ## Trade data model

Modelled from the spec: the core pipeline source (PositionTracker,
DecisionGate, RiskManager, SignalEngine) is not among the available files;
the data model below follows spec sections 3 and 4 word for word. -/

/-- Trade side, spec section 3. -/
inductive Side where
  | long
  | short
deriving DecidableEq, Repr

/-- Trade status, spec section 4.4: states are open and closed, no others. -/
inductive TradeStatus where
  | «open»
  | closed
deriving DecidableEq, Repr

/-- Directional sign of a side: +1 for long, −1 for short (spec 4.4). -/
def Side.dir : Side → ℚ
  | .long => 1
  | .short => -1

/-- Modelled from the spec: the Trade record of spec section 3 (PositionTracker
is absent from the available source files). -/
structure Trade where
  id : Nat
  symbol : String
  side : Side
  qty : ℚ
  entryPrice : ℚ
  exitPrice : Option ℚ
  stopLoss : ℚ
  takeProfit : ℚ
  status : TradeStatus
  pnl : Option ℚ
  rMultiple : Option ℚ
  confidence : ℚ
  openedAt : Nat
  closedAt : Option Nat
  checklistSnapshot : String
deriving DecidableEq, Repr

/-- Modelled from the spec: the create (open) transition of spec 4.4 — writes
entry price, stop-loss, take-profit, quantity, confidence, checklist snapshot
and opened-at; the optional close-side fields start unset. -/
def createTrade (id : Nat) (symbol : String) (side : Side)
    (qty entry stopLoss takeProfit confidence : ℚ) (now : Nat)
    (checklist : String) : Trade :=
  { id := id, symbol := symbol, side := side, qty := qty, entryPrice := entry,
    exitPrice := none, stopLoss := stopLoss, takeProfit := takeProfit,
    status := .«open», pnl := none, rMultiple := none,
    confidence := confidence, openedAt := now, closedAt := none,
    checklistSnapshot := checklist }

/-- Modelled from the spec: the close transition of spec 4.4.  On an open
trade it computes pnl = (exit − entry) × quantity × side direction and
r-multiple = pnl / (|entry − stop-loss| × quantity) and writes exit price,
pnl, r-multiple, closed-at and status = closed.  The transition is terminal:
a trade already closed is left unchanged. -/
def closeTrade (t : Trade) (exit : ℚ) (now : Nat) : Trade :=
  if t.status = .closed then t
  else
    let pnl := (exit - t.entryPrice) * t.qty * t.side.dir
    let r := pnl / (|t.entryPrice - t.stopLoss| * t.qty)
    { t with exitPrice := some exit, pnl := some pnl, rMultiple := some r,
             closedAt := some now, status := .closed }

/-- Modelled from the spec: close-trigger evaluation over one evaluation
window (a bar), spec 4.4.  Checks whether the window crossed the stop-loss or
the take-profit and returns the resolution price; the stop-loss check comes
first, realizing the conservative loss-first tie-break of spec 4.4. -/
def checkExit (t : Trade) (low high : ℚ) : Option ℚ :=
  match t.side with
  | .long =>
      if low ≤ t.stopLoss then some t.stopLoss
      else if t.takeProfit ≤ high then some t.takeProfit
      else none
  | .short =>
      if t.stopLoss ≤ high then some t.stopLoss
      else if low ≤ t.takeProfit then some t.takeProfit
      else none

/-- Both the stop-loss and the take-profit are crossed within the evaluation
window `[low, high]` (spec 4.4, the gap scenario). -/
def bothCrossed (t : Trade) (low high : ℚ) : Prop :=
  match t.side with
  | .long => low ≤ t.stopLoss ∧ t.takeProfit ≤ high
  | .short => t.stopLoss ≤ high ∧ low ≤ t.takeProfit

/-! ## SignalEngine

Modelled from the spec: the SignalEngine source is not among the available
files; spec 4.1 describes it as a pure function of its bar window that
combines independent indicator votes by a deterministic weighting scheme. -/

/-- An OHLCV price bar (spec section 3). -/
structure Bar where
  symbol : String
  timeframe : String
  timestamp : Nat
  «open» : ℚ
  high : ℚ
  low : ℚ
  close : ℚ
  volume : ℚ
deriving DecidableEq, Repr

/-- Directional bias of a signal (spec section 3). -/
inductive Bias where
  | bullish
  | bearish
  | neutral
deriving DecidableEq, Repr

/-- Modelled from the spec: the SignalSnapshot record of spec section 3. -/
structure SignalSnapshot where
  symbol : String
  timestamp : Nat
  signals : List (String × ℚ)
  score : ℚ
  confidence : ℚ
  bias : Bias
  shouldTrade : Bool
deriving DecidableEq, Repr

/-- Modelled from the spec: one technical indicator — a lookback, a weight and
a vote function over the bar window (spec 4.1 leaves indicator formulas
unspecified; the engine contract is parametric in them). -/
structure Indicator where
  name : String
  lookback : Nat
  weight : ℚ
  vote : List Bar → ℚ

/-- Modelled from the spec: SignalEngine configuration — its indicator set,
the neutral band for bias, and the minimums gating should-trade (spec 4.1). -/
structure SignalConfig where
  indicators : List Indicator
  neutralBand : ℚ
  minScore : ℚ
  minConfidence : ℚ

/-- The longest lookback used by the configured indicators (spec 4.1). -/
def longestLookback (cfg : SignalConfig) : Nat :=
  (cfg.indicators.map (·.lookback)).foldr max 0

/-- The neutral, should-trade = false snapshot produced on insufficient
history (spec 4.1 / section 7(a)). -/
def neutralSnapshot (symbol : String) (ts : Nat) : SignalSnapshot :=
  { symbol := symbol, timestamp := ts, signals := [], score := 0,
    confidence := 0, bias := .neutral, shouldTrade := false }

/-- Modelled from the spec: SignalEngine.compute, spec 4.1.  With fewer bars
than the longest lookback it degrades to the neutral snapshot; otherwise it
combines the indicator votes into a weighted score, derives confidence as the
fraction of indicators agreeing with the sign of the aggregate score, derives
bias from the score against the neutral band, and sets should-trade only when
score magnitude and confidence both reach the configured minimums. -/
def computeSignal (cfg : SignalConfig) (symbol : String) (ts : Nat)
    (bars : List Bar) : SignalSnapshot :=
  if bars.length < longestLookback cfg then neutralSnapshot symbol ts
  else
    let votes := cfg.indicators.map fun i => (i.name, i.vote bars)
    let score := (cfg.indicators.map fun i => i.weight * i.vote bars).sum
    let agree :=
      (cfg.indicators.filter fun i => decide (0 ≤ i.vote bars * score)).length
    let confidence : ℚ :=
      if cfg.indicators.length = 0 then 0
      else (agree : ℚ) / (cfg.indicators.length : ℚ)
    let bias : Bias :=
      if cfg.neutralBand < score then .bullish
      else if score < -cfg.neutralBand then .bearish
      else .neutral
    let shouldTrade :=
      decide (cfg.minScore ≤ |score|) && decide (cfg.minConfidence ≤ confidence)
    { symbol := symbol, timestamp := ts, signals := votes, score := score,
      confidence := confidence, bias := bias, shouldTrade := shouldTrade }

/-! ## DecisionGate, RiskManager and the pipeline step

Modelled from the spec: sections 4.2, 4.3 and 4.6; the corresponding source
files are not among the available files. -/

/-- DecisionGate output (spec 4.2). -/
inductive Decision where
  | noop
  | openCandidate
  | closeCandidate
deriving DecidableEq, Repr

/-- Modelled from the spec: DecisionGate thresholds (spec 4.2). -/
structure GateConfig where
  minConfidence : ℚ
  minScore : ℚ
  maxOpenPositions : Nat
deriving DecidableEq, Repr

/-- Whether some trade with status = open exists for the symbol. -/
def hasOpenTradeOn (trades : List Trade) (symbol : String) : Bool :=
  trades.any fun t => decide (t.status = .«open» ∧ t.symbol = symbol)

/-- Number of trades with status = open across the whole book. -/
def openPositionCount (trades : List Trade) : Nat :=
  (trades.filter fun t => decide (t.status = .«open»)).length

/-- Modelled from the spec: DecisionGate.evaluate, spec 4.2.  If a trade is
open on the symbol only close conditions are evaluated (`closeTriggered`
abstracts the stop/take-profit crossing, explicit close signal or manual
override of spec 4.4); while a position is open no new entry is considered.
Otherwise an open-candidate requires should-trade, the confidence and score
minimums, and the book-wide open-position cap. -/
def decisionGate (cfg : GateConfig) (trades : List Trade)
    (snap : SignalSnapshot) (closeTriggered : Bool) : Decision :=
  if hasOpenTradeOn trades snap.symbol then
    if closeTriggered then .closeCandidate else .noop
  else if snap.shouldTrade
      && decide (cfg.minConfidence ≤ snap.confidence)
      && decide (cfg.minScore ≤ |snap.score|)
      && decide (openPositionCount trades < cfg.maxOpenPositions) then
    .openCandidate
  else .noop

/-- Modelled from the spec: RiskManager configuration (spec 4.3). -/
structure RiskConfig where
  riskFraction : ℚ
  rewardRisk : ℚ
  stopPct : ℚ
  minUnit : ℚ
deriving DecidableEq, Repr

/-- Raw risk-sized quantity rounded down to the instrument's minimum tradable
unit: ⌊((equity × risk fraction) / stop distance) / unit⌋ × unit (spec 4.3). -/
def sizeQuantity (equity riskFrac stopDist minUnit : ℚ) : ℚ :=
  (⌊equity * riskFrac / stopDist / minUnit⌋ : ℚ) * minUnit

/-- Modelled from the spec: the sizing step of RiskManager, spec 4.3.
Reports a sizing error (`none`) exactly when the stop distance is ≤ 0 or the
computed quantity rounds to 0. -/
def sizePosition (equity riskFrac stopDist minUnit : ℚ) : Option ℚ :=
  if stopDist ≤ 0 then none
  else
    let q := sizeQuantity equity riskFrac stopDist minUnit
    if q = 0 then none else some q

/-- A successful RiskManager result (spec 4.3). -/
structure Sizing where
  stopLoss : ℚ
  takeProfit : ℚ
  qty : ℚ
deriving DecidableEq, Repr

/-- Modelled from the spec: RiskManager.size, spec 4.3.  Stop distance is
price × stop percentage; stop-loss sits at price ∓ distance and take-profit
at price ± distance × reward:risk, each in the side's direction; quantity
comes from `sizePosition` and a sizing error aborts the open. -/
def riskManagerSize (cfg : RiskConfig) (side : Side) (price equity : ℚ) :
    Option Sizing :=
  let dist := price * cfg.stopPct
  match sizePosition equity cfg.riskFraction dist cfg.minUnit with
  | none => none
  | some qty =>
      match side with
      | .long =>
          some { stopLoss := price - dist,
                 takeProfit := price + dist * cfg.rewardRisk, qty := qty }
      | .short =>
          some { stopLoss := price + dist,
                 takeProfit := price - dist * cfg.rewardRisk, qty := qty }

/-- Side implied by a snapshot's bias (long on bullish, short otherwise). -/
def sideOfBias : Bias → Side
  | .bullish => .long
  | _ => .short

/-- PositionTracker book state threaded through pipeline ticks. -/
structure BookState where
  trades : List Trade
  nextId : Nat
deriving DecidableEq, Repr

/-- Modelled from the spec: one pipeline tick for one symbol, spec 4.6 —
DecisionGate.evaluate, then on open-candidate RiskManager.size and
PositionTracker create (a sizing error opens no trade and mutates no state),
and on close-candidate PositionTracker close of the symbol's open trade. -/
def tick (gcfg : GateConfig) (rcfg : RiskConfig) (st : BookState)
    (snap : SignalSnapshot) (price equity : ℚ) (closeTriggered : Bool)
    (now : Nat) : BookState :=
  match decisionGate gcfg st.trades snap closeTriggered with
  | .noop => st
  | .openCandidate =>
      match riskManagerSize rcfg (sideOfBias snap.bias) price equity with
      | none => st
      | some sz =>
          { trades := createTrade st.nextId snap.symbol (sideOfBias snap.bias)
              sz.qty price sz.stopLoss sz.takeProfit snap.confidence now
              "checklist" :: st.trades,
            nextId := st.nextId + 1 }
  | .closeCandidate =>
      { trades := st.trades.map fun t =>
          if t.symbol = snap.symbol ∧ t.status = .«open» then
            closeTrade t price now
          else t,
        nextId := st.nextId }

/-- At most one trade with status = open per symbol (spec section 3
invariant). -/
def OnePerSymbol (trades : List Trade) : Prop :=
  trades.Pairwise fun a b =>
    a.status = .«open» → b.status = .«open» → a.symbol ≠ b.symbol

/-! ## Concrete scenario trades from the spec's testable properties -/

/-- Spec section 8 scenario: long entry 100, stop-loss 98, take-profit 106,
quantity 10. -/
def longScenarioTrade : Trade :=
  createTrade 0 "BTC" .long 10 100 98 106 (1/2) 0 "checklist"

/-- Spec section 8 scenario: short entry 50, stop-loss 52, take-profit 44,
quantity 5. -/
def shortScenarioTrade : Trade :=
  createTrade 1 "BTC" .short 5 50 52 44 (1/2) 0 "checklist"

/-! ## Helper lemmas -/

theorem closeTrade_status (t : Trade) (e : ℚ) (n : Nat) :
    (closeTrade t e n).status = .closed := by
  unfold closeTrade
  split
  · assumption
  · rfl

theorem closeTrade_symbol (t : Trade) (e : ℚ) (n : Nat) :
    (closeTrade t e n).symbol = t.symbol := by
  unfold closeTrade
  split <;> rfl

theorem closeTrade_of_closed (t : Trade) (e : ℚ) (n : Nat)
    (h : t.status = .closed) : closeTrade t e n = t := by
  unfold closeTrade
  simp [h]

/-! ## Claim theorems -/

/-- C1: closing an open trade writes pnl = (exit − entry) × quantity × side
direction (+1 long, −1 short) and r-multiple = pnl / (|entry − stop-loss| ×
quantity); in particular the long 100/98/qty-10 trade closed at 106 gets
pnl 60 and r-multiple 3, and the short 50/52/qty-5 trade closed at 52 gets
pnl −10 and r-multiple −1. -/
theorem close_pnl_rmultiple (t : Trade) (e : ℚ) (n : Nat)
    (h : t.status = .«open») :
    (closeTrade t e n).pnl = some ((e - t.entryPrice) * t.qty * t.side.dir) ∧
    (closeTrade t e n).rMultiple =
      some (((e - t.entryPrice) * t.qty * t.side.dir) /
        (|t.entryPrice - t.stopLoss| * t.qty)) ∧
    (closeTrade longScenarioTrade 106 1).pnl = some 60 ∧
    (closeTrade longScenarioTrade 106 1).rMultiple = some 3 ∧
    (closeTrade shortScenarioTrade 52 1).pnl = some (-10) ∧
    (closeTrade shortScenarioTrade 52 1).rMultiple = some (-1) := by
  refine ⟨by simp [closeTrade, h], by simp [closeTrade, h], ?_, ?_, ?_, ?_⟩ <;>
    · norm_num [closeTrade, longScenarioTrade, shortScenarioTrade, createTrade,
        Side.dir]
      decide

/-- C1 witness: the theorem applied to the spec's long scenario trade. -/
theorem close_pnl_rmultiple_witness :
    longScenarioTrade.status = .«open» ∧
    (closeTrade longScenarioTrade 106 1).pnl = some 60 ∧
    (closeTrade longScenarioTrade 106 1).rMultiple = some 3 :=
  ⟨rfl,
   (close_pnl_rmultiple longScenarioTrade 106 1 rfl).2.2.1,
   (close_pnl_rmultiple longScenarioTrade 106 1 rfl).2.2.2.1⟩

/-- C3: the startup schema of `createDb` matches the spec's column sets: the
trades column list is exactly the spec's, status defaults to "open", the
signal_snapshots column list is exactly the spec's, its id is an
auto-incrementing primary key and should_trade is an INTEGER 0/1 column. -/
theorem schema_matches_spec :
    tradesTable.map Column.name = specTradesColumns ∧
    ({ name := "status", sqlType := "TEXT", notNull := true,
       primaryKey := false, autoIncrement := false,
       defaultVal := some "open" } : Column) ∈ tradesTable ∧
    signalSnapshotsTable.map Column.name = specSignalSnapshotsColumns ∧
    ({ name := "id", sqlType := "INTEGER", notNull := false,
       primaryKey := true, autoIncrement := true,
       defaultVal := none } : Column) ∈ signalSnapshotsTable ∧
    ({ name := "should_trade", sqlType := "INTEGER", notNull := true,
       primaryKey := false, autoIncrement := false,
       defaultVal := some "0" } : Column) ∈ signalSnapshotsTable := by
  refine ⟨by decide, by decide, by decide, by decide, by decide⟩

/-- C7: the close transition is terminal and idempotent — closing an
already-closed trade leaves it unchanged, closing twice equals closing once
(pnl is never recomputed), and a closed trade's status stays closed. -/
theorem close_terminal_idempotent (t : Trade) (e e2 : ℚ) (n n2 : Nat) :
    (t.status = .closed → closeTrade t e n = t) ∧
    closeTrade (closeTrade t e n) e2 n2 = closeTrade t e n ∧
    (closeTrade t e n).status = .closed := by
  refine ⟨fun h => closeTrade_of_closed t e n h, ?_, closeTrade_status t e n⟩
  exact closeTrade_of_closed _ e2 n2 (closeTrade_status t e n)

/-- C7 witness: the theorem applied to a concrete closed trade. -/
theorem close_terminal_idempotent_witness :
    closeTrade (closeTrade longScenarioTrade 106 1) 50 2
      = closeTrade longScenarioTrade 106 1 :=
  (close_terminal_idempotent (closeTrade longScenarioTrade 106 1)
    50 2 0 0).1 (closeTrade_status longScenarioTrade 106 1)

/-- C10: `getDb` is idempotent — a call after any call returns the same
handle and leaves the module state unchanged, and over any sequence of calls
from process start `createDb` (table creation) runs at most once. -/
theorem getDb_idempotent :
    (∀ s : DbModuleState, getDb (getDb s).2 = ((getDb s).1, (getDb s).2)) ∧
    (∀ n : Nat, (getDbCalls n initDbState).createCalls ≤ 1) := by
  have hsome : ∀ s : DbModuleState, ((getDb s).2).db = some (getDb s).1 := by
    intro s
    unfold getDb
    match h : s.db with
    | some h2 => simp [h]
    | none => simp [h]
  have hid : ∀ s : DbModuleState, ∀ h, s.db = some h → getDb s = (h, s) := by
    intro s h hdb
    unfold getDb
    rw [hdb]
  have hstable : ∀ (n : Nat) (s : DbModuleState), ∀ h, s.db = some h →
      getDbCalls n s = s := by
    intro n
    induction n with
    | zero => intro s h hdb; rfl
    | succ m ih =>
        intro s h hdb
        show getDbCalls m (getDb s).2 = s
        rw [hid s h hdb]
        exact ih s h hdb
  constructor
  · intro s
    rw [hid (getDb s).2 (getDb s).1 (hsome s)]
  · intro n
    match n with
    | 0 => exact Nat.zero_le 1
    | m + 1 =>
        show (getDbCalls m (getDb initDbState).2).createCalls ≤ 1
        rw [hstable m (getDb initDbState).2 (getDb initDbState).1
          (hsome initDbState)]
        exact Nat.le_refl 1

/-- All four close-side fields (exit price, pnl, r-multiple, closed-at) are
set exactly when the trade's status is closed (spec section 3 invariant). -/
def ClosedFieldsIff (t : Trade) : Prop :=
  (t.exitPrice.isSome = true ↔ t.status = .closed) ∧
  (t.pnl.isSome = true ↔ t.status = .closed) ∧
  (t.rMultiple.isSome = true ↔ t.status = .closed) ∧
  (t.closedAt.isSome = true ↔ t.status = .closed)

/-- C9: exit price, pnl, r-multiple and closed-at are each set iff
status = closed — true of a freshly created trade and preserved by the close
transition — and close never mutates stop-loss or take-profit. -/
theorem fields_set_iff_closed (id : Nat) (sym : String) (sd : Side)
    (q en sl tp c : ℚ) (now : Nat) (cl : String) (t : Trade) (e : ℚ)
    (n : Nat) :
    ClosedFieldsIff (createTrade id sym sd q en sl tp c now cl) ∧
    (ClosedFieldsIff t → ClosedFieldsIff (closeTrade t e n)) ∧
    (closeTrade t e n).stopLoss = t.stopLoss ∧
    (closeTrade t e n).takeProfit = t.takeProfit := by
  refine ⟨by simp [ClosedFieldsIff, createTrade], ?_, ?_, ?_⟩
  · intro h
    unfold closeTrade
    split
    · exact h
    · simp [ClosedFieldsIff]
  · unfold closeTrade
    split <;> rfl
  · unfold closeTrade
    split <;> rfl

/-- C9 witness: the theorem applied to the long scenario trade and its
close. -/
theorem fields_set_iff_closed_witness :
    ClosedFieldsIff (closeTrade longScenarioTrade 106 1) ∧
    (closeTrade longScenarioTrade 106 1).stopLoss = 98 :=
  ⟨(fields_set_iff_closed 0 "BTC" .long 10 100 98 106 (1/2) 0 "checklist"
      longScenarioTrade 106 1).2.1
      (by simp [ClosedFieldsIff, longScenarioTrade, createTrade]),
   (fields_set_iff_closed 0 "BTC" .long 10 100 98 106 (1/2) 0 "checklist"
      longScenarioTrade 106 1).2.2.1⟩

/-- C8: when both the stop-loss and the take-profit are crossed within one
evaluation window, the exit resolves at the stop-loss price (loss-first
tie-break), never at the take-profit price. -/
theorem stop_loss_precedence (t : Trade) (low high : ℚ)
    (h : bothCrossed t low high) :
    checkExit t low high = some t.stopLoss ∧
    (t.stopLoss ≠ t.takeProfit → checkExit t low high ≠ some t.takeProfit)
    := by
  have hx : checkExit t low high = some t.stopLoss := by
    cases hs : t.side with
    | long =>
        rw [bothCrossed, hs] at h
        obtain ⟨h1, h2⟩ := h
        simp [checkExit, hs, h1]
    | short =>
        rw [bothCrossed, hs] at h
        obtain ⟨h1, h2⟩ := h
        simp [checkExit, hs, h1]
  refine ⟨hx, fun hne hc => hne ?_⟩
  rw [hx] at hc
  exact Option.some.inj hc

/-- C8 witness: the long scenario trade in a window [95, 110] gapping over
both levels resolves at the stop-loss 98. -/
theorem stop_loss_precedence_witness :
    checkExit longScenarioTrade 95 110 = some 98 :=
  (stop_loss_precedence longScenarioTrade 95 110
    (by refine ⟨?_, ?_⟩ <;> norm_num [longScenarioTrade, createTrade])).1

/-- C5: on any bar series shorter than the longest indicator lookback,
SignalEngine returns a neutral, should-trade = false snapshot instead of
failing. -/
theorem insufficient_history_neutral (cfg : SignalConfig) (sym : String)
    (ts : Nat) (bars : List Bar) (h : bars.length < longestLookback cfg) :
    (computeSignal cfg sym ts bars).bias = .neutral ∧
    (computeSignal cfg sym ts bars).shouldTrade = false := by
  unfold computeSignal
  rw [if_pos h]
  exact ⟨rfl, rfl⟩

/-- A sample indicator: closing-price sum with lookback 2. -/
def sampleIndicator : Indicator :=
  { name := "close-sum", lookback := 2, weight := 1,
    vote := fun bars => (bars.map (·.close)).sum }

/-- A sample SignalEngine configuration with one indicator. -/
def sampleSignalConfig : SignalConfig :=
  { indicators := [sampleIndicator], neutralBand := 0, minScore := 1,
    minConfidence := 1/2 }

/-- C5 witness: the empty bar series is shorter than the sample lookback and
produces the neutral, should-trade = false snapshot. -/
theorem insufficient_history_neutral_witness :
    ([] : List Bar).length < longestLookback sampleSignalConfig ∧
    (computeSignal sampleSignalConfig "BTC" 0 []).bias = .neutral ∧
    (computeSignal sampleSignalConfig "BTC" 0 []).shouldTrade = false :=
  ⟨by norm_num [longestLookback, sampleSignalConfig, sampleIndicator],
   (insufficient_history_neutral sampleSignalConfig "BTC" 0 []
     (by norm_num [longestLookback, sampleSignalConfig, sampleIndicator])).1,
   (insufficient_history_neutral sampleSignalConfig "BTC" 0 []
     (by norm_num [longestLookback, sampleSignalConfig, sampleIndicator])).2⟩

/-- C6: SignalEngine is a pure function of its input bar window — identical
bar sequences yield identical snapshots. -/
theorem signalEngine_deterministic (cfg : SignalConfig) (sym : String)
    (ts : Nat) (b1 b2 : List Bar) (h : b1 = b2) :
    computeSignal cfg sym ts b1 = computeSignal cfg sym ts b2 := by
  rw [h]

/-- C6 witness: the theorem applied to two identical concrete bar series. -/
theorem signalEngine_deterministic_witness :
    computeSignal sampleSignalConfig "BTC" 0 []
      = computeSignal sampleSignalConfig "BTC" 0 [] :=
  signalEngine_deterministic sampleSignalConfig "BTC" 0 [] [] rfl

theorem gate_no_close_without_trigger (cfg : GateConfig)
    (trades : List Trade) (snap : SignalSnapshot) :
    decisionGate cfg trades snap false ≠ .closeCandidate := by
  unfold decisionGate
  split
  · simp
  · split <;> simp

/-- C4: RiskManager sizing — quantity is (equity × risk fraction) / stop
distance rounded down to the minimum tradable unit; it reports a sizing
error exactly when stop distance ≤ 0 or the quantity rounds to 0; equity
10000 at risk fraction 1/100 with stop distance 2 sizes to 50; and a sizing
error makes the pipeline tick open no trade and mutate no state. -/
theorem risk_sizing :
    (∀ e f d u : ℚ, d ≤ 0 → sizePosition e f d u = none) ∧
    (∀ e f d u : ℚ, 0 < d → sizeQuantity e f d u = 0 →
      sizePosition e f d u = none) ∧
    (∀ e f d u : ℚ, 0 < d → sizeQuantity e f d u ≠ 0 →
      sizePosition e f d u = some ((⌊e * f / d / u⌋ : ℚ) * u)) ∧
    sizePosition 10000 (1/100) 2 1 = some 50 ∧
    (∀ (gcfg : GateConfig) (rcfg : RiskConfig) (st : BookState)
       (snap : SignalSnapshot) (price equity : ℚ) (now : Nat),
       riskManagerSize rcfg (sideOfBias snap.bias) price equity = none →
       tick gcfg rcfg st snap price equity false now = st) := by
  refine ⟨?_, ?_, ?_, ?_, ?_⟩
  · intro e f d u hd
    simp [sizePosition, hd]
  · intro e f d u hd hq
    unfold sizePosition
    rw [if_neg (not_le.mpr hd)]
    show (if sizeQuantity e f d u = 0 then none
          else some (sizeQuantity e f d u)) = none
    rw [if_pos hq]
  · intro e f d u hd hq
    unfold sizePosition
    rw [if_neg (not_le.mpr hd)]
    show (if sizeQuantity e f d u = 0 then none
          else some (sizeQuantity e f d u)) = some _
    rw [if_neg hq]
    rfl
  · norm_num [sizePosition, sizeQuantity]
  · intro gcfg rcfg st snap price equity now hnone
    unfold tick
    cases hg : decisionGate gcfg st.trades snap false with
    | noop => rfl
    | openCandidate => rw [hnone]
    | closeCandidate =>
        exact absurd hg (gate_no_close_without_trigger gcfg st.trades snap)

/-- C4 witness: the theorem applied at stop distance 0 (sizing error) and at
the spec's equity-10000 scenario. -/
theorem risk_sizing_witness :
    sizePosition 10000 (1/100) 0 1 = none ∧
    sizePosition 10000 (1/100) 2 1 = some 50 :=
  ⟨risk_sizing.1 10000 (1/100) 0 1 (by norm_num), risk_sizing.2.2.2.1⟩

theorem gate_openCandidate_no_open (cfg : GateConfig) (trades : List Trade)
    (snap : SignalSnapshot) (ct : Bool)
    (h : decisionGate cfg trades snap ct = .openCandidate) :
    hasOpenTradeOn trades snap.symbol = false := by
  cases hb : hasOpenTradeOn trades snap.symbol with
  | false => rfl
  | true =>
      unfold decisionGate at h
      rw [hb] at h
      cases ct <;> simp at h

theorem no_open_of_hasOpen_false {trades : List Trade} {sym : String}
    (h : hasOpenTradeOn trades sym = false) :
    ∀ t ∈ trades, t.status = .«open» → t.symbol ≠ sym := by
  intro t ht hst
  simp [hasOpenTradeOn] at h
  exact h t ht hst

theorem closeIfHit_symbol (sym : String) (price : ℚ) (now : Nat)
    (t : Trade) :
    (if t.symbol = sym ∧ t.status = .«open» then closeTrade t price now
     else t).symbol = t.symbol := by
  split
  · exact closeTrade_symbol t price now
  · rfl

theorem closeIfHit_open (sym : String) (price : ℚ) (now : Nat) (t : Trade)
    (h : (if t.symbol = sym ∧ t.status = .«open» then closeTrade t price now
          else t).status = .«open») :
    (if t.symbol = sym ∧ t.status = .«open» then closeTrade t price now
     else t) = t := by
  by_cases hc : t.symbol = sym ∧ t.status = .«open»
  · rw [if_pos hc] at h
    rw [closeTrade_status] at h
    simp at h
  · rw [if_neg hc]

/-- C2: every pipeline tick — the DecisionGate considering no new entry while
a position is open on the symbol, PositionTracker create, and the close
transition — preserves the invariant that no two trades with status = open
share a symbol. -/
theorem tick_preserves_single_open (gcfg : GateConfig) (rcfg : RiskConfig)
    (st : BookState) (snap : SignalSnapshot) (price equity : ℚ) (ct : Bool)
    (now : Nat) (h : OnePerSymbol st.trades) :
    OnePerSymbol (tick gcfg rcfg st snap price equity ct now).trades := by
  unfold tick
  cases hg : decisionGate gcfg st.trades snap ct with
  | noop => exact h
  | openCandidate =>
      cases hrm : riskManagerSize rcfg (sideOfBias snap.bias) price equity
        with
      | none => exact h
      | some sz =>
          have hno :=
            no_open_of_hasOpen_false (gate_openCandidate_no_open _ _ _ _ hg)
          show OnePerSymbol (createTrade st.nextId snap.symbol
            (sideOfBias snap.bias) sz.qty price sz.stopLoss sz.takeProfit
            snap.confidence now "checklist" :: st.trades)
          refine List.Pairwise.cons ?_ h
          intro b hb _ hbopen
          exact Ne.symm (hno b hb hbopen)
  | closeCandidate =>
      show (st.trades.map fun t =>
        if t.symbol = snap.symbol ∧ t.status = .«open» then
          closeTrade t price now
        else t).Pairwise _
      rw [List.pairwise_map]
      refine h.imp ?_
      intro a b hab ha hb
      have hfa := closeIfHit_open snap.symbol price now a ha
      have hfb := closeIfHit_open snap.symbol price now b hb
      rw [hfa] at ha ⊢
      rw [hfb] at hb ⊢
      exact hab ha hb

/-- A sample bullish, should-trade snapshot. -/
def sampleSnapshot : SignalSnapshot :=
  { symbol := "BTC", timestamp := 0, signals := [], score := 2,
    confidence := 1, bias := .bullish, shouldTrade := true }

/-- Sample DecisionGate thresholds. -/
def sampleGateConfig : GateConfig :=
  { minConfidence := 1/2, minScore := 1, maxOpenPositions := 5 }

/-- Sample RiskManager configuration. -/
def sampleRiskConfig : RiskConfig :=
  { riskFraction := 1/100, rewardRisk := 3, stopPct := 1/50, minUnit := 1 }

/-- C2 witness: the theorem applied to the empty book and a concrete
open-candidate tick. -/
theorem tick_preserves_single_open_witness :
    OnePerSymbol (tick sampleGateConfig sampleRiskConfig
      { trades := [], nextId := 0 } sampleSnapshot 100 10000 false 0).trades
    :=
  tick_preserves_single_open sampleGateConfig sampleRiskConfig
    { trades := [], nextId := 0 } sampleSnapshot 100 10000 false 0
    List.Pairwise.nil

end ResearchAgent
